import Mathlib

/-!
Verification of the yappatron audio segmentation and gating pipeline.

This file gives a shallow embedding, in Lean, of the stateful pipeline
implemented in `packages/core/yappatron/audio.py` (utterance segmentation,
deduplication, cooldown) and `packages/core/yappatron/speaker.py` (speaker
identification and the speaker verification filter), and proves the spec's
testable properties about it.

Modelling conventions:
- audio samples are `Int` (the float32 sample values are only ever
  concatenated, counted, and compared for content identity, never
  arithmetically combined, so an abstract discrete sample type is faithful);
- a frame/chunk is a `List Int`; `np.concatenate` is `List.flatten`;
- wall-clock time (`time.time()`) is `ℚ`;
- the MD5 digest of `audio.py`'s `_hash_audio` is abstracted as the strided
  subsample itself (an injective stand-in for the digest): every
  deduplication property proved here depends only on the fingerprint being
  a deterministic function of every 100th sample, never on digest width;
- the external speaker-embedding model is a parameter (`SpeakerBackend`):
  embedding extraction returns `unavailable` (model could not load),
  `failed` (an exception was raised during extraction/scoring), or an
  abstract embedding, and cosine similarity of two embeddings is an
  abstract `ℚ`-valued function, since floating-point cosine similarity of
  an opaque model's vectors is not itself embeddable.
-/

namespace Yappatron

/-- One audio chunk: the flattened sample block handed to the processing
loop (`indata.copy().flatten()` in `audio.py`). -/
abbrev Chunk := List Int

/-- `l[::n]` — every `n`-th element of `l` starting at index 0 (the
elements whose index is divisible by `n`), as used by
`AudioCapture._hash_audio`'s `audio[::100]` downsampling. -/
def everyNth (n : Nat) (l : List Int) : List Int :=
  (l.enum.filter (fun p => p.1 % n == 0)).map Prod.snd

/-- `AudioCapture._hash_audio`: fingerprint of an utterance for
deduplication.  The code computes `hashlib.md5(audio[::100].tobytes())
.hexdigest()[:16]`; the digest step is abstracted as the identity on the
strided subsample (see the module docstring). -/
def hashAudio (audio : List Int) : List Int := everyNth 100 audio

/-- `AudioCapture._max_recent = 5`: capacity of the recent-fingerprint
FIFO. -/
def maxRecent : Nat := 5

/-- The deduplication check-and-insert inlined in
`AudioCapture._process_audio` (audio.py lines 130-133): if the fingerprint
is already present return `false` and leave the cache unchanged; otherwise
append it, pop the oldest entry if the cache now exceeds `maxRecent`, and
return `true`. -/
def checkAndInsert (recent : List (List Int)) (h : List Int) :
    Bool × List (List Int) :=
  if h ∈ recent then (false, recent)
  else
    (true,
      if (recent ++ [h]).length > maxRecent then (recent ++ [h]).tail
      else recent ++ [h])

/-- `C8`: The recent-fingerprint cache never exceeds `maxRecent = 5`
entries: a `checkAndInsert` from a cache of size ≤ 5 leaves a cache of
size ≤ 5, and an insertion into a full cache of 5 evicts exactly the
oldest fingerprint (FIFO), leaving `recent.tail ++ [h]`. -/
theorem c8_dedup_cache_bounded (recent : List (List Int)) (h : List Int)
    (hle : recent.length ≤ 5) :
    (checkAndInsert recent h).2.length ≤ 5 ∧
    (recent.length = 5 → h ∉ recent →
      (checkAndInsert recent h).2 = recent.tail ++ [h]) := by
  constructor
  · unfold checkAndInsert maxRecent
    split
    · simpa using hle
    · split
      · rename_i hgt
        simp only [List.length_tail, List.length_append, List.length_cons,
          List.length_nil]
        omega
      · rename_i hng
        simp only [List.length_append, List.length_cons, List.length_nil] at hng ⊢
        omega
  · intro h5 hnotin
    unfold checkAndInsert maxRecent
    rw [if_neg hnotin, if_pos (by simp [h5])]
    cases recent with
    | nil => simp at h5
    | cons a t => simp

/-- Witness for `C8` at a concrete full cache. -/
theorem c8_dedup_cache_bounded_witness :
    (checkAndInsert [[0], [1], [2], [3], [4]] [9]).2.length ≤ 5 ∧
    (checkAndInsert [[0], [1], [2], [3], [4]] [9]).2 =
      [[1], [2], [3], [4], [9]] := by
  have h := c8_dedup_cache_bounded [[0], [1], [2], [3], [4]] [9] (by decide)
  exact ⟨h.1, by simpa using h.2 (by decide) (by decide)⟩

/-! ## Speaker identification (`speaker.py`) -/

/-- Outcome of `SpeakerIdentifier._get_embedding` together with the
surrounding `try`/`except` in `verify`: the model may be unavailable
(`_ensure_model` returned `False`, so `_get_embedding` returned `None`),
extraction or scoring may raise (`failed`), or an embedding is produced. -/
inductive EmbedResult (E : Type) where
  | unavailable : EmbedResult E
  | failed : EmbedResult E
  | ok : E → EmbedResult E
deriving Repr, DecidableEq

/-- The external speaker-embedding model (SpeechBrain ECAPA), abstracted:
`extract` models `_get_embedding` plus any exception raised inside
`verify`'s `try` block, and `cosineSim` models the cosine-similarity score
`np.dot(a, b) / (np.linalg.norm(a) * np.linalg.norm(b))` of two opaque
embedding vectors. -/
structure SpeakerBackend (E : Type) where
  extract : List Int → EmbedResult E
  cosineSim : E → E → ℚ

/-- `SpeakerConfig` (speaker.py): similarity threshold defaults to 0.25. -/
structure SpeakerConfig where
  threshold : ℚ := 1/4
  sampleRate : Nat := 16000
deriving Repr, DecidableEq

/-- `SpeakerIdentifier`'s verification-relevant state: the configuration
and the optionally loaded enrolled embedding (`_enrolled_embedding`). -/
structure SpeakerIdentifier (E : Type) where
  config : SpeakerConfig := {}
  enrolled : Option E := none

/-- `SpeakerIdentifier.verify` (speaker.py lines 141-171): unenrolled →
`(True, 1.0)`; embedding unavailable → `(True, 1.0)`; exception during
extraction/scoring → `(True, 0.0)`; otherwise `(similarity >= threshold,
similarity)`. -/
def verify {E : Type} (b : SpeakerBackend E) (sid : SpeakerIdentifier E)
    (audio : List Int) : Bool × ℚ :=
  match sid.enrolled with
  | none => (true, 1)
  | some enr =>
    match b.extract audio with
    | .unavailable => (true, 1)
    | .failed => (true, 0)
    | .ok emb =>
      (decide (sid.config.threshold ≤ b.cosineSim enr emb), b.cosineSim enr emb)

/-- `C7`: `verify` is total (never raises) and fail-open: it returns
`(true, 1)` when no speaker is enrolled or the model is unavailable,
`(true, 0)` when extraction raises, and only with a successfully computed
embedding does it return `(similarity ≥ threshold, similarity)`; the
threshold defaults to 0.25. -/
theorem c7_verify_fail_open :
    (∀ (E : Type) (b : SpeakerBackend E) (sid : SpeakerIdentifier E)
        (audio : List Int), sid.enrolled = none →
      verify b sid audio = (true, 1)) ∧
    (∀ (E : Type) (b : SpeakerBackend E) (sid : SpeakerIdentifier E)
        (audio : List Int) (e : E), sid.enrolled = some e →
      b.extract audio = .unavailable → verify b sid audio = (true, 1)) ∧
    (∀ (E : Type) (b : SpeakerBackend E) (sid : SpeakerIdentifier E)
        (audio : List Int) (e : E), sid.enrolled = some e →
      b.extract audio = .failed → verify b sid audio = (true, 0)) ∧
    (∀ (E : Type) (b : SpeakerBackend E) (sid : SpeakerIdentifier E)
        (audio : List Int) (e emb : E), sid.enrolled = some e →
      b.extract audio = .ok emb →
      verify b sid audio =
        (decide (sid.config.threshold ≤ b.cosineSim e emb),
         b.cosineSim e emb)) ∧
    ({} : SpeakerConfig).threshold = 1/4 := by
  refine ⟨?_, ?_, ?_, ?_, rfl⟩ <;>
    (intros E b sid audio; intros) <;>
    simp_all [verify]

/-- Witness for `C7`: each fail-open branch evaluated at a concrete
backend and identifier. -/
theorem c7_verify_fail_open_witness :
    verify ⟨fun _ => .unavailable, fun _ _ => 1⟩
      ({ enrolled := none } : SpeakerIdentifier Bool) [] = (true, 1) ∧
    verify ⟨fun _ => .unavailable, fun _ _ => 1⟩
      ({ enrolled := some true } : SpeakerIdentifier Bool) [] = (true, 1) ∧
    verify ⟨fun _ => .failed, fun _ _ => 1⟩
      ({ enrolled := some true } : SpeakerIdentifier Bool) [] = (true, 0) ∧
    verify ⟨fun _ => .ok false, fun _ _ => 1⟩
      ({ enrolled := some true } : SpeakerIdentifier Bool) [] = (true, 1) := by
  have h := c7_verify_fail_open
  refine ⟨h.1 Bool _ _ [] rfl, h.2.1 Bool _ _ [] true rfl rfl,
    h.2.2.1 Bool _ _ [] true rfl rfl, ?_⟩
  have h4 := h.2.2.2.1 Bool ⟨fun _ => .ok false, fun _ _ => 1⟩
    { enrolled := some true } [] true false rfl rfl
  rw [h4]
  norm_num

/-! ## SpeakerVerificationFilter (`speaker.py` lines 181-248) -/

/-- The filter's configuration, fixed at construction:
`min_samples = int(0.5 * 16000) = 8000` and
`_verification_interval = int(2.0 * 16000) = 32000`. -/
structure FilterConfig where
  minSamples : Nat := 8000
  verificationInterval : Nat := 32000
deriving Repr, DecidableEq

/-- The default construction of the filter (speaker.py lines 184-197). -/
def defaultFilterConfig : FilterConfig := {}

/-- `SpeakerVerificationFilter`'s mutable state: `_audio_buffer`,
`_buffer_samples`, `_last_verified`, `_samples_since_verification`. -/
structure FilterState where
  audioBuffer : List Chunk
  bufferSamples : Nat
  lastVerified : Bool
  samplesSinceVerification : Nat
deriving Repr, DecidableEq

/-- The filter's state right after construction. -/
def initFilterState : FilterState := ⟨[], 0, false, 0⟩

/-- `SpeakerVerificationFilter.reset` (speaker.py lines 243-248). -/
def svfReset (_ : FilterState) : FilterState := ⟨[], 0, false, 0⟩

/-- Everything one call to `SpeakerVerificationFilter.process` produces:
the returned pair `(is_verified_speaker, audio_to_transcribe)`, the
post-call state, and whether `identifier.verify` was invoked during the
call. -/
structure SvfOutcome where
  verified : Bool
  audio : Option (List Int)
  state : FilterState
  ranVerification : Bool
deriving Repr, DecidableEq

/-- The tail of `process` when `_last_verified` holds (speaker.py lines
233-239): concatenate the full buffer as the result, and trim the buffer
to its last 3 chunks (recomputing `_buffer_samples`) only when it holds
more than 5 chunks. -/
def verifiedReturn (buf : List Chunk) (samples since : Nat) (ran : Bool) :
    SvfOutcome :=
  if 5 < buf.length then
    ⟨true, some buf.flatten,
      ⟨buf.drop (buf.length - 3),
        ((buf.drop (buf.length - 3)).map List.length).sum, true, since⟩,
      ran⟩
  else
    ⟨true, some buf.flatten, ⟨buf, samples, true, since⟩, ran⟩

/-- `SpeakerVerificationFilter.process` (speaker.py lines 199-241):
append the chunk; if the buffer is still below `minSamples`, reject
without verification; otherwise (re-)verify when never verified or the
re-verification interval has elapsed, clearing the buffer on a mismatch;
finally, when verified, return the concatenated buffer and trim it. The
last `return False, None` of the source is kept as the (unreachable)
final branch. -/
def svfProcess {E : Type} (b : SpeakerBackend E) (sid : SpeakerIdentifier E)
    (cfg : FilterConfig) (st : FilterState) (chunk : Chunk) : SvfOutcome :=
  if st.bufferSamples + chunk.length < cfg.minSamples then
    ⟨false, none,
      ⟨st.audioBuffer ++ [chunk], st.bufferSamples + chunk.length,
        st.lastVerified, st.samplesSinceVerification + chunk.length⟩,
      false⟩
  else if st.lastVerified = false ∨
      cfg.verificationInterval ≤ st.samplesSinceVerification + chunk.length then
    if (verify b sid ((st.audioBuffer ++ [chunk]).flatten)).1 = false then
      ⟨false, none, ⟨[], 0, false, 0⟩, true⟩
    else
      verifiedReturn (st.audioBuffer ++ [chunk])
        (st.bufferSamples + chunk.length) 0 true
  else if st.lastVerified then
    verifiedReturn (st.audioBuffer ++ [chunk])
      (st.bufferSamples + chunk.length)
      (st.samplesSinceVerification + chunk.length) false
  else
    ⟨false, none,
      ⟨st.audioBuffer ++ [chunk], st.bufferSamples + chunk.length,
        st.lastVerified, st.samplesSinceVerification + chunk.length⟩,
      false⟩

/-- `C6`: whenever the post-append buffered sample count is below
`minSamples` (8000 with the default 0.5 s at 16 kHz), `process` returns
`(false, None)` without invoking verification, only accumulating the
chunk. -/
theorem c6_below_min_samples {E : Type} (b : SpeakerBackend E)
    (sid : SpeakerIdentifier E) (cfg : FilterConfig) (st : FilterState)
    (chunk : Chunk) (hlt : st.bufferSamples + chunk.length < cfg.minSamples) :
    svfProcess b sid cfg st chunk =
      ⟨false, none,
        ⟨st.audioBuffer ++ [chunk], st.bufferSamples + chunk.length,
          st.lastVerified, st.samplesSinceVerification + chunk.length⟩,
        false⟩ ∧
    defaultFilterConfig.minSamples = 8000 := by
  refine ⟨?_, rfl⟩
  unfold svfProcess
  rw [if_pos hlt]

/-- Witness for `C6` at a concrete short chunk. -/
theorem c6_below_min_samples_witness :
    svfProcess ⟨fun _ => .unavailable, fun _ _ => 1⟩
      ({ enrolled := none } : SpeakerIdentifier Unit) defaultFilterConfig
      initFilterState [0] =
      ⟨false, none, ⟨[[0]], 1, false, 1⟩, false⟩ := by
  have h := c6_below_min_samples ⟨fun _ => .unavailable, fun _ _ => 1⟩
    ({ enrolled := none } : SpeakerIdentifier Unit) defaultFilterConfig
    initFilterState [0] (by decide)
  simpa [initFilterState] using h.1

/-- A fail-open backend instance: the embedding model never loads. -/
def permBackend : SpeakerBackend Unit := ⟨fun _ => .unavailable, fun _ _ => 1⟩

/-- An identifier with no enrolled speaker (permissive mode). -/
def unenrolledSid : SpeakerIdentifier Unit := {}

/-- What the verified tail of `process` returns and keeps. -/
theorem verifiedReturn_spec (buf : List Chunk) (samples since : Nat)
    (ran : Bool) :
    (verifiedReturn buf samples since ran).verified = true ∧
    (verifiedReturn buf samples since ran).audio = some buf.flatten ∧
    (verifiedReturn buf samples since ran).state.audioBuffer =
      (if 5 < buf.length then buf.drop (buf.length - 3) else buf) := by
  unfold verifiedReturn
  split <;> simp

/-- `bufferSamples` agrees with the actual buffered sample count — the
representation invariant `process` maintains. -/
def goodState (st : FilterState) : Prop :=
  st.bufferSamples = (st.audioBuffer.map List.length).sum

/-- The verified tail preserves the sample-count invariant. -/
theorem verifiedReturn_goodState (buf : List Chunk) (samples since : Nat)
    (ran : Bool) (hs : samples = (buf.map List.length).sum) :
    goodState (verifiedReturn buf samples since ran).state := by
  unfold verifiedReturn goodState
  split <;> simp [hs]

/-- A 6000-sample chunk used by the concrete run below. -/
def cexChunkA : Chunk := List.replicate 6000 0

def cexChunkB : Chunk := List.replicate 2000 0

def cexChunkC : Chunk := List.replicate 100 0

theorem cexChunkA_length : cexChunkA.length = 6000 := by
  rw [cexChunkA, List.length_replicate]

theorem cexChunkB_length : cexChunkB.length = 2000 := by
  rw [cexChunkB, List.length_replicate]

theorem cexChunkC_length : cexChunkC.length = 100 := by
  rw [cexChunkC, List.length_replicate]

/-- Filter state after feeding `cexChunkA` to a fresh filter. -/
def cexState1 : FilterState := ⟨[cexChunkA], 6000, false, 6000⟩

/-- Filter state after additionally feeding `cexChunkB` (first verified
return, 2 chunks kept). -/
def cexState2 : FilterState := ⟨[cexChunkA, cexChunkB], 8000, true, 0⟩

/-- Filter state after additionally feeding `cexChunkC` (verified return,
3 chunks kept). -/
def cexState3 : FilterState := ⟨[cexChunkA, cexChunkB, cexChunkC], 8100, true, 100⟩

/-- The five mutually exclusive outcomes of one `process` call:
insufficient audio, rejection by verification, a verified return (with
at least `minSamples` buffered), or the unreachable final fallback. -/
theorem svfProcess_cases {E : Type} (b : SpeakerBackend E)
    (sid : SpeakerIdentifier E) (cfg : FilterConfig) (st : FilterState)
    (chunk : Chunk) :
    (svfProcess b sid cfg st chunk =
      ⟨false, none,
        ⟨st.audioBuffer ++ [chunk], st.bufferSamples + chunk.length,
          st.lastVerified, st.samplesSinceVerification + chunk.length⟩,
        false⟩) ∨
    (svfProcess b sid cfg st chunk = ⟨false, none, ⟨[], 0, false, 0⟩, true⟩) ∨
    (∃ since ran, cfg.minSamples ≤ st.bufferSamples + chunk.length ∧
      svfProcess b sid cfg st chunk =
        verifiedReturn (st.audioBuffer ++ [chunk])
          (st.bufferSamples + chunk.length) since ran) := by
  unfold svfProcess
  split_ifs with h1 h2 h3 h4
  · exact Or.inl rfl
  · exact Or.inr (Or.inl rfl)
  · exact Or.inr (Or.inr ⟨0, true, by omega, rfl⟩)
  · exact Or.inr (Or.inr
      ⟨st.samplesSinceVerification + chunk.length, false, by omega, rfl⟩)
  · exact Or.inl rfl

/-- Counterexample to `C3`: along a concrete reachable run of
`SpeakerVerificationFilter.process` (unenrolled identifier, default
configuration), the fourth call returns `(true, audio)` yet leaves 4
chunks in the buffer — not the most recent 3 — because the code only
trims when more than 5 chunks are buffered. -/
theorem c3_counterexample :
    (svfProcess permBackend unenrolledSid defaultFilterConfig
      initFilterState cexChunkA).state = cexState1 ∧
    (svfProcess permBackend unenrolledSid defaultFilterConfig
      cexState1 cexChunkB).state = cexState2 ∧
    (svfProcess permBackend unenrolledSid defaultFilterConfig
      cexState2 cexChunkC).state = cexState3 ∧
    (svfProcess permBackend unenrolledSid defaultFilterConfig
      cexState3 cexChunkC).verified = true ∧
    (svfProcess permBackend unenrolledSid defaultFilterConfig
      cexState3 cexChunkC).state.audioBuffer.length = 4 := by
  refine ⟨?_, ?_, ?_, ?_, ?_⟩ <;>
    simp [svfProcess, verifiedReturn, verify, permBackend, unenrolledSid,
      initFilterState, defaultFilterConfig, cexState1, cexState2, cexState3,
      cexChunkA_length, cexChunkB_length, cexChunkC_length]

/-- `C3` amended: every `process` call that returns `(true, audio)`
returns the concatenation of the entire buffered chunk sequence including
the current chunk, and afterwards the buffer is trimmed to its most
recent 3 chunks when it held more than 5 chunks, and is kept whole
otherwise. -/
theorem c3_amended {E : Type} (b : SpeakerBackend E)
    (sid : SpeakerIdentifier E) (cfg : FilterConfig) (st : FilterState)
    (chunk : Chunk)
    (hv : (svfProcess b sid cfg st chunk).verified = true) :
    (svfProcess b sid cfg st chunk).audio =
      some ((st.audioBuffer ++ [chunk]).flatten) ∧
    (svfProcess b sid cfg st chunk).state.audioBuffer =
      (if 5 < (st.audioBuffer ++ [chunk]).length
       then (st.audioBuffer ++ [chunk]).drop
         ((st.audioBuffer ++ [chunk]).length - 3)
       else st.audioBuffer ++ [chunk]) := by
  rcases svfProcess_cases b sid cfg st chunk with h | h | ⟨since, ran, _, h⟩ <;>
    rw [h] <;> rw [h] at hv
  · exact absurd hv (by simp)
  · exact absurd hv (by simp)
  · exact ⟨(verifiedReturn_spec _ _ _ _).2.1, (verifiedReturn_spec _ _ _ _).2.2⟩

/-- Witness for the amended `C3` at the second call of the concrete run. -/
theorem c3_amended_witness :
    (svfProcess permBackend unenrolledSid defaultFilterConfig
      cexState1 cexChunkB).audio =
      some ((cexState1.audioBuffer ++ [cexChunkB]).flatten) ∧
    (svfProcess permBackend unenrolledSid defaultFilterConfig
      cexState1 cexChunkB).state.audioBuffer =
      cexState1.audioBuffer ++ [cexChunkB] := by
  have h := c3_amended permBackend unenrolledSid defaultFilterConfig
    cexState1 cexChunkB
    (by simp [svfProcess, verifiedReturn, verify, permBackend,
      unenrolledSid, defaultFilterConfig, cexState1, cexChunkA_length,
      cexChunkB_length])
  refine ⟨h.1, ?_⟩
  rw [h.2, if_neg (by simp [cexState1])]

/-- `C10`: `process` preserves the sample-count invariant, and under it
every `(true, audio)` return carries at least `minSamples` samples (8000
with the default configuration), in particular a non-empty buffer. -/
theorem c10_verified_audio_length {E : Type} (b : SpeakerBackend E)
    (sid : SpeakerIdentifier E) (cfg : FilterConfig) (st : FilterState)
    (chunk : Chunk) (hg : goodState st) :
    goodState (svfProcess b sid cfg st chunk).state ∧
    ((svfProcess b sid cfg st chunk).verified = true →
      ∃ a, (svfProcess b sid cfg st chunk).audio = some a ∧
        cfg.minSamples ≤ a.length ∧ (0 < cfg.minSamples → a ≠ [])) ∧
    defaultFilterConfig.minSamples = 8000 := by
  unfold goodState at hg
  have hbuf : st.bufferSamples + chunk.length =
      (((st.audioBuffer ++ [chunk]).map List.length).sum) := by
    simp [hg]
  have hflat : ((st.audioBuffer ++ [chunk]).flatten).length =
      st.bufferSamples + chunk.length := by
    rw [List.length_flatten, hbuf]
  rcases svfProcess_cases b sid cfg st chunk with h | h | ⟨since, ran, hmin, h⟩ <;>
    rw [h]
  · exact ⟨hbuf, by simp, rfl⟩
  · exact ⟨rfl, by simp, rfl⟩
  · refine ⟨verifiedReturn_goodState _ _ _ _ hbuf, ?_, rfl⟩
    intro _
    refine ⟨(st.audioBuffer ++ [chunk]).flatten,
      (verifiedReturn_spec _ _ _ _).2.1, ?_, ?_⟩
    · rw [hflat]; omega
    · intro hpos hnil
      rw [hnil] at hflat
      simp at hflat
      omega

/-- Witness for `C10` at the second call of the concrete run. -/
theorem c10_verified_audio_length_witness :
    goodState (svfProcess permBackend unenrolledSid defaultFilterConfig
      cexState1 cexChunkB).state ∧
    ∃ a, (svfProcess permBackend unenrolledSid defaultFilterConfig
        cexState1 cexChunkB).audio = some a ∧
      defaultFilterConfig.minSamples ≤ a.length ∧
      (0 < defaultFilterConfig.minSamples → a ≠ []) := by
  have h := c10_verified_audio_length permBackend unenrolledSid
    defaultFilterConfig cexState1 cexChunkB
    (by simp [goodState, cexState1, cexChunkA_length])
  refine ⟨h.1, h.2.1 ?_⟩
  simp [svfProcess, verifiedReturn, verify, permBackend,
    unenrolledSid, defaultFilterConfig, cexState1, cexChunkA_length,
    cexChunkB_length]

/-! ## Utterance segmentation (`AudioCapture._process_audio`, audio.py) -/

/-- `_max_silence_chunks = 25` (~800 ms of silence ends an utterance). -/
def maxSilenceChunks : Nat := 25

/-- `_min_speech_chunks = 8` (~256 ms of speech makes an utterance valid). -/
def minSpeechChunks : Nat := 8

/-- `_cooldown_duration = 1.0` second. -/
def cooldownDuration : ℚ := 1

/-- The cooldown gate's membership test, `time.time() < self._cooldown_until`
(audio.py line 106). -/
def cooldownActive (suppressUntil t : ℚ) : Bool := decide (t < suppressUntil)

/-- Arming the cooldown gate, `self._cooldown_until = time.time() +
self._cooldown_duration` (audio.py line 139). -/
def armCooldown (now duration : ℚ) : ℚ := now + duration

/-- The mutable state of `AudioCapture`'s processing loop: `_speech_buffer`,
`_silence_chunks`, `_speech_chunk_count`, `_recent_hashes`,
`_cooldown_until`. -/
structure CaptureState where
  speechBuffer : List Chunk
  silenceChunks : Nat
  speechChunkCount : Nat
  recentHashes : List (List Int)
  cooldownUntil : ℚ
deriving Repr, DecidableEq

/-- State of `AudioCapture` right after construction. -/
def initCaptureState : CaptureState := ⟨[], 0, 0, [], 0⟩

/-- The observable events of one iteration of the processing loop:
whether the VAD scored the chunk (`vad.is_speech` was called), the
`Utterance` the segmenter completed (`full_audio`, formed when the
speech-count check passes), the utterance actually emitted downstream
(`speech_queue.put`, i.e. after deduplication), whether an utterance
completion-or-discard happened (the `silence >= max` branch ran), and how
many times `vad.reset()` was called. -/
structure StepEvents where
  scored : Bool
  utterance : Option (List Int)
  queued : Option (List Int)
  completed : Bool
  vadResets : Nat
deriving Repr, DecidableEq

/-- The events of a skipped iteration. -/
def noEvents : StepEvents := ⟨false, none, none, false, 0⟩

/-- The events of an iteration that scored the chunk but neither
completed nor emitted anything. -/
def scoredOnly : StepEvents := ⟨true, none, none, false, 0⟩

/-- The reset of the segmenter's state at the end of an utterance
(audio.py lines 141-144): clear the buffer and zero both counters; the
dedup cache and the cooldown timestamp are untouched. -/
def segReset (s : CaptureState) : CaptureState :=
  ⟨[], 0, 0, s.recentHashes, s.cooldownUntil⟩

/-- The buffer after the trailing-silence append (audio.py lines 119-121):
the chunk is kept only while `silence_chunks <= 3`. -/
def trailingBuf (s : CaptureState) (chunk : Chunk) : List Chunk :=
  if s.silenceChunks + 1 ≤ 3 then s.speechBuffer ++ [chunk] else s.speechBuffer

/-- The end-of-utterance block (audio.py lines 124-145): if at least
`minSpeechChunks` speech chunks were collected, form the utterance and
run it through deduplication, emitting and arming the cooldown only on a
fresh fingerprint; in every case clear the segmenter state and reset the
VAD exactly once. -/
def completeUtterance (s : CaptureState) (now : ℚ) (full : List Int) :
    CaptureState × StepEvents :=
  if minSpeechChunks ≤ s.speechChunkCount then
    if (checkAndInsert s.recentHashes (hashAudio full)).1 then
      (⟨[], 0, 0, (checkAndInsert s.recentHashes (hashAudio full)).2,
          armCooldown now cooldownDuration⟩,
        ⟨true, some full, some full, true, 1⟩)
    else
      (⟨[], 0, 0, s.recentHashes, s.cooldownUntil⟩,
        ⟨true, some full, none, true, 1⟩)
  else
    (⟨[], 0, 0, s.recentHashes, s.cooldownUntil⟩,
      ⟨true, none, none, true, 1⟩)

/-- One iteration of `AudioCapture._process_audio`'s loop body on a
dequeued chunk (audio.py lines 105-145).  The VAD classification of the
chunk is an input (`isSpeech`), since the classifier is an external
model. -/
def processChunk (s : CaptureState) (now : ℚ) (chunk : Chunk)
    (isSpeech : Bool) : CaptureState × StepEvents :=
  if cooldownActive s.cooldownUntil now then (s, noEvents)
  else if isSpeech then
    (⟨s.speechBuffer ++ [chunk], 0, s.speechChunkCount + 1,
        s.recentHashes, s.cooldownUntil⟩, scoredOnly)
  else if s.speechBuffer = [] then (s, scoredOnly)
  else if maxSilenceChunks ≤ s.silenceChunks + 1 then
    completeUtterance s now (trailingBuf s chunk).flatten
  else
    (⟨trailingBuf s chunk, s.silenceChunks + 1, s.speechChunkCount,
        s.recentHashes, s.cooldownUntil⟩, scoredOnly)

/-- `C9`: resetting the segmenter state or the speaker verification
filter is idempotent, and both resets land on the respective initial
state (for the segmenter, on the initial values of the buffer and the
two counters — the dedup cache and the cooldown timestamp are not part
of the segmenter's reset). -/
theorem c9_reset_idempotent (s : CaptureState) (st : FilterState) :
    segReset (segReset s) = segReset s ∧
    svfReset (svfReset st) = svfReset st ∧
    svfReset st = initFilterState ∧
    (segReset s).speechBuffer = [] ∧
    (segReset s).silenceChunks = 0 ∧
    (segReset s).speechChunkCount = 0 := by
  exact ⟨rfl, rfl, rfl, rfl, rfl, rfl⟩

/-- `C2`: `vad.reset()` is called exactly once in every iteration that
completes an utterance (whether it is emitted, suppressed as a duplicate,
or discarded as too short), and never in any other iteration.  Since the
reset happens inside the completing iteration and the VAD scores only
inside iterations, the reset always precedes the next scored frame. -/
theorem c2_vad_reset_on_completion (s : CaptureState) (now : ℚ)
    (chunk : Chunk) (isSpeech : Bool) :
    (processChunk s now chunk isSpeech).2.vadResets =
      cond (processChunk s now chunk isSpeech).2.completed 1 0 := by
  unfold processChunk completeUtterance
  split_ifs <;> rfl

/-- A state one silent frame away from emitting an utterance: 8 speech
chunks buffered, 24 silence chunks counted, empty dedup cache, cooldown
disarmed. -/
def demoEmitState : CaptureState := ⟨List.replicate 8 [], 24, 8, [], 0⟩

/-- `C5`: the cooldown gate armed at `t0` for duration `d` is active on
all of `[t0, t0 + d)` and inactive from `t0 + d` on; an active gate is
consulted first and short-circuits the iteration before the VAD scores
or the segmenter sees the frame; the gate is armed to `now +
cooldownDuration` exactly when a non-duplicate utterance is emitted; and
the duration defaults to 1 second. -/
theorem c5_cooldown_gate :
    (∀ t0 d t : ℚ, t0 ≤ t → t < t0 + d →
      cooldownActive (armCooldown t0 d) t = true) ∧
    (∀ t0 d t : ℚ, armCooldown t0 d ≤ t →
      cooldownActive (armCooldown t0 d) t = false) ∧
    (∀ (s : CaptureState) (now : ℚ) (chunk : Chunk) (isSpeech : Bool),
      cooldownActive s.cooldownUntil now = true →
      processChunk s now chunk isSpeech = (s, noEvents)) ∧
    (∀ (s : CaptureState) (now : ℚ) (chunk : Chunk) (isSpeech : Bool),
      (processChunk s now chunk isSpeech).2.queued ≠ none →
      (processChunk s now chunk isSpeech).1.cooldownUntil =
        armCooldown now cooldownDuration) ∧
    cooldownDuration = 1 := by
  refine ⟨?_, ?_, ?_, ?_, rfl⟩
  · intro t0 d t _ h2
    simp only [cooldownActive, armCooldown, decide_eq_true_eq]
    exact h2
  · intro t0 d t h
    simp only [cooldownActive, armCooldown, decide_eq_false_iff_not, not_lt]
    simpa [armCooldown] using h
  · intro s now chunk isSpeech h
    unfold processChunk
    rw [if_pos h]
  · intro s now chunk isSpeech h
    unfold processChunk completeUtterance at h ⊢
    split_ifs at h ⊢ <;> simp_all [noEvents, scoredOnly]

/-- Witness for `C5`: the interval property at `t0 = 0`, `d = 1`, the
short-circuit on an armed gate, and the arming after the emission step
out of `demoEmitState`. -/
theorem c5_cooldown_gate_witness :
    cooldownActive (armCooldown 0 1) (1/2) = true ∧
    cooldownActive (armCooldown 0 1) 1 = false ∧
    processChunk ⟨[], 0, 0, [], 1⟩ 0 [] true = (⟨[], 0, 0, [], 1⟩, noEvents) ∧
    (processChunk demoEmitState 0 [] false).1.cooldownUntil =
      armCooldown 0 cooldownDuration := by
  have h := c5_cooldown_gate
  refine ⟨h.1 0 1 (1/2) (by norm_num) (by norm_num),
    h.2.1 0 1 1 (by norm_num [armCooldown]),
    h.2.2.1 ⟨[], 0, 0, [], 1⟩ 0 [] true (by decide),
    h.2.2.2.1 demoEmitState 0 [] false (by decide)⟩

/-! ## Traces of the processing loop (claim C1) -/

/-- One dequeued frame as the processing loop sees it: the wall-clock
time of the iteration, the audio chunk, and the external classifier's
verdict on it. -/
structure FrameInput where
  now : ℚ
  chunk : Chunk
  isSpeech : Bool
deriving Repr, DecidableEq

/-- Run the processing loop over a finite frame sequence, recording for
every iteration the input, the events, and the post-iteration state. -/
def runTrace (s : CaptureState) :
    List FrameInput → List (FrameInput × StepEvents × CaptureState)
  | [] => []
  | f :: rest =>
    (f, (processChunk s f.now f.chunk f.isSpeech).2,
        (processChunk s f.now f.chunk f.isSpeech).1) ::
      runTrace (processChunk s f.now f.chunk f.isSpeech).1 rest

/-- One fold step of the trace-level speech counter: a completion zeroes
it, an admitted (scored) speech-classified frame increments it. -/
def speechStep (acc : Nat)
    (r : FrameInput × StepEvents × CaptureState) : Nat :=
  if r.2.1.completed then 0
  else if r.2.1.scored && r.1.isSpeech then acc + 1 else acc

/-- The number of speech-classified frames admitted into segmentation
since the last return to Idle (utterance completion or discard), read
off a trace, starting the count at `start`. -/
def speechSince (start : Nat)
    (tr : List (FrameInput × StepEvents × CaptureState)) : Nat :=
  tr.foldl speechStep start

/-- The state's `_speech_chunk_count` evolves exactly as the trace-level
speech counter. -/
theorem processChunk_speechCount (s : CaptureState) (f : FrameInput) :
    (processChunk s f.now f.chunk f.isSpeech).1.speechChunkCount =
      speechStep s.speechChunkCount
        (f, (processChunk s f.now f.chunk f.isSpeech).2,
            (processChunk s f.now f.chunk f.isSpeech).1) := by
  unfold processChunk completeUtterance speechStep
  split_ifs <;> simp_all [noEvents, scoredOnly]

/-- Per-iteration characterisation: an `Utterance` is formed exactly in
a completing iteration whose state had collected at least
`minSpeechChunks` speech chunks, and every completing iteration leaves
the segmenter Idle (empty buffer, zero counters). -/
theorem processChunk_emit_iff (s : CaptureState) (f : FrameInput) :
    ((processChunk s f.now f.chunk f.isSpeech).2.utterance ≠ none ↔
      ((processChunk s f.now f.chunk f.isSpeech).2.completed = true ∧
        minSpeechChunks ≤ s.speechChunkCount)) ∧
    ((processChunk s f.now f.chunk f.isSpeech).2.completed = true →
      (processChunk s f.now f.chunk f.isSpeech).1.speechBuffer = [] ∧
      (processChunk s f.now f.chunk f.isSpeech).1.silenceChunks = 0 ∧
      (processChunk s f.now f.chunk f.isSpeech).1.speechChunkCount = 0) := by
  unfold processChunk completeUtterance
  split_ifs <;> simp_all [noEvents, scoredOnly]

/-- Trace-level generalisation of `C1` over an arbitrary start state,
with the speech count started at the state's counter. -/
theorem runTrace_emit_iff (ins : List FrameInput) :
    ∀ (s : CaptureState) (i : Nat) (hi : i < (runTrace s ins).length),
      ((((runTrace s ins).get ⟨i, hi⟩).2.1.utterance ≠ none) ↔
        ((((runTrace s ins).get ⟨i, hi⟩).2.1.completed = true) ∧
          minSpeechChunks ≤
            speechSince s.speechChunkCount ((runTrace s ins).take i))) ∧
      ((((runTrace s ins).get ⟨i, hi⟩).2.1.completed = true) →
        (((runTrace s ins).get ⟨i, hi⟩).2.2.speechBuffer = [] ∧
          ((runTrace s ins).get ⟨i, hi⟩).2.2.silenceChunks = 0 ∧
          ((runTrace s ins).get ⟨i, hi⟩).2.2.speechChunkCount = 0)) := by
  induction ins with
  | nil =>
    intro s i hi
    simp [runTrace] at hi
  | cons f rest ih =>
    intro s i hi
    cases i with
    | zero =>
      have h := processChunk_emit_iff s f
      simpa [runTrace, speechSince] using h
    | succ j =>
      have hj : j <
          (runTrace (processChunk s f.now f.chunk f.isSpeech).1 rest).length := by
        have := hi
        simp only [runTrace, List.length_cons] at this
        omega
      have h := ih (processChunk s f.now f.chunk f.isSpeech).1 j hj
      have hcount := processChunk_speechCount s f
      simp only [runTrace, List.get_cons_succ, List.take_succ_cons,
        speechSince, List.foldl_cons] at h ⊢
      rw [← hcount]
      exact h

/-- `C1`: over any finite frame sequence from the initial (Idle) state,
an iteration forms an `Utterance` (the segmenter's `full_audio`, handed
to dedup/emission or, in `main.py`, to `_process_utterance`) exactly
when it is a completing iteration — `silenceChunks` reached
`maxSilenceChunks` — whose cumulative count of admitted speech-classified
frames since the last Idle reached `minSpeechChunks`; and every
completing iteration (emit or discard) returns the segmenter to Idle
with an empty buffer and zero counters. -/
theorem c1_utterance_iff_min_speech (ins : List FrameInput) (i : Nat)
    (hi : i < (runTrace initCaptureState ins).length) :
    (((runTrace initCaptureState ins).get ⟨i, hi⟩).2.1.utterance ≠ none ↔
      ((((runTrace initCaptureState ins).get ⟨i, hi⟩).2.1.completed = true) ∧
        minSpeechChunks ≤
          speechSince 0 ((runTrace initCaptureState ins).take i))) ∧
    ((((runTrace initCaptureState ins).get ⟨i, hi⟩).2.1.completed = true) →
      (((runTrace initCaptureState ins).get ⟨i, hi⟩).2.2.speechBuffer = [] ∧
        ((runTrace initCaptureState ins).get ⟨i, hi⟩).2.2.silenceChunks = 0 ∧
        ((runTrace initCaptureState ins).get ⟨i, hi⟩).2.2.speechChunkCount
          = 0)) :=
  runTrace_emit_iff ins initCaptureState i hi

/-- Scenario A input: 8 speech-classified frames then 25
silence-classified frames. -/
def demoIns : List FrameInput :=
  List.replicate 8 ⟨0, [], true⟩ ++ List.replicate 25 ⟨0, [], false⟩

set_option maxRecDepth 40000 in
/-- Witness for `C1` on Scenario A: the 33rd iteration (index 32)
completes and forms an utterance. -/
theorem c1_utterance_iff_min_speech_witness :
    ((runTrace initCaptureState demoIns).get ⟨32, by decide⟩).2.1.utterance
      ≠ none := by
  have h := c1_utterance_iff_min_speech demoIns 32 (by decide)
  exact h.1.mpr ⟨by decide, by decide⟩

/-! ## Repeated-content deduplication (claim C4) -/

/-- Run a sequence of deduplication checks, returning the accept/reject
results in order and the final cache. -/
def runDedup (recent : List (List Int)) :
    List (List Int) → List Bool × List (List Int)
  | [] => ([], recent)
  | h :: rest =>
    ((checkAndInsert recent h).1 ::
        (runDedup (checkAndInsert recent h).2 rest).1,
      (runDedup (checkAndInsert recent h).2 rest).2)

/-- The newest `k` entries of the cache (the right end is the newest). -/
def lastN (k : Nat) (l : List (List Int)) : List (List Int) :=
  l.drop (l.length - k)

theorem lastN_subset (k : Nat) (l : List (List Int)) : lastN k l ⊆ l :=
  List.drop_subset _ _

theorem lastN_mono (l : List (List Int)) {j k : Nat} (hjk : j ≤ k) :
    lastN j l ⊆ lastN k l := by
  unfold lastN
  have h : l.length - j = (l.length - k) + (l.length - j - (l.length - k)) := by
    omega
  rw [h, ← List.drop_drop]
  exact List.drop_subset _ _

theorem lastN_append_last (l : List (List Int)) (x : List Int) (k : Nat) :
    lastN (k + 1) (l ++ [x]) = lastN k l ++ [x] := by
  unfold lastN
  rw [List.length_append]
  simp only [List.length_cons, List.length_nil]
  have h : l.length + (0 + 1) - (k + 1) = l.length - k := by omega
  rw [h, List.drop_append_of_le_length (by omega)]

theorem lastN_cons (a : List Int) (l : List (List Int)) (k : Nat)
    (hk : k ≤ l.length) :
    lastN k (a :: l) = lastN k l := by
  unfold lastN
  have h : (a :: l).length - k = (l.length - k) + 1 := by
    simp only [List.length_cons]
    omega
  rw [h, List.drop_succ_cons]

theorem lastN_tail_append (l : List (List Int)) (x : List Int) (k : Nat)
    (hk : k + 1 ≤ l.length) :
    lastN (k + 1) ((l ++ [x]).tail) = lastN k l ++ [x] := by
  cases l with
  | nil => simp at hk
  | cons a t =>
    have ht : ((a :: t) ++ [x]).tail = t ++ [x] := rfl
    rw [ht, lastN_append_last t x k,
      lastN_cons a t k (by simp only [List.length_cons] at hk; omega)]

/-- A fresh fingerprint is accepted. -/
theorem checkAndInsert_fresh (recent : List (List Int)) (h : List Int)
    (hf : h ∉ recent) : (checkAndInsert recent h).1 = true := by
  unfold checkAndInsert
  rw [if_neg hf]

/-- A cached fingerprint is rejected. -/
theorem checkAndInsert_cached (recent : List (List Int)) (h : List Int)
    (hm : h ∈ recent) : (checkAndInsert recent h).1 = false := by
  unfold checkAndInsert
  rw [if_pos hm]

/-- A fingerprint among the newest `k ≤ 4` cache entries survives one
further `checkAndInsert` among the newest `k + 1`. -/
theorem checkAndInsert_survive (recent : List (List Int))
    (fp h : List Int) (k : Nat) (hk : k ≤ 4)
    (hmem : fp ∈ lastN k recent) :
    fp ∈ lastN (k + 1) (checkAndInsert recent h).2 := by
  unfold checkAndInsert maxRecent
  split_ifs with hin hlen
  · exact lastN_mono recent (Nat.le_succ k) hmem
  · rw [lastN_tail_append recent h k
      (by simp only [List.length_append, List.length_cons,
        List.length_nil] at hlen; omega)]
    exact List.mem_append_left _ hmem
  · rw [lastN_append_last recent h k]
    exact List.mem_append_left _ hmem

/-- A fingerprint among the newest `k` entries is still cached after any
run of further checks of which at most `5 - k` are accepted. -/
theorem dedupSurvive (mids : List (List Int)) :
    ∀ (recent : List (List Int)) (k : Nat) (fp : List Int),
      fp ∈ lastN k recent →
      k + ((runDedup recent mids).1.count true) ≤ 5 →
      fp ∈ (runDedup recent mids).2 := by
  induction mids with
  | nil =>
    intro recent k fp hmem _
    exact lastN_subset k recent hmem
  | cons m rest ih =>
    intro recent k fp hmem hcount
    simp only [runDedup] at hcount ⊢
    by_cases hr : (checkAndInsert recent m).1 = true
    · rw [hr, List.count_cons] at hcount
      simp at hcount
      have hs := checkAndInsert_survive recent fp m k (by omega) hmem
      exact ih (checkAndInsert recent m).2 (k + 1) fp hs (by omega)
    · have hEq : (checkAndInsert recent m).2 = recent := by
        unfold checkAndInsert at hr ⊢
        split_ifs at hr ⊢ <;> simp_all
      rw [List.count_cons] at hcount
      rw [Bool.not_eq_true] at hr
      rw [hr] at hcount
      simp at hcount
      rw [hEq] at hcount ⊢
      exact ih recent k fp hmem (by omega)

/-- `C4`: feeding the identical audio content to the deduplication gate
twice, with fewer than 5 accepted (inserted) utterances in between,
yields accept then reject: the first check of the fingerprint (every
100th sample of the utterance) inserts it, and it is still cached at the
second check. -/
theorem c4_duplicate_rejected (audio : List Int) (recent : List (List Int))
    (mids : List (List Int))
    (hfresh : hashAudio audio ∉ recent)
    (hcount :
      ((runDedup (checkAndInsert recent (hashAudio audio)).2 mids).1.count
        true) < 5) :
    (checkAndInsert recent (hashAudio audio)).1 = true ∧
    (checkAndInsert
        (runDedup (checkAndInsert recent (hashAudio audio)).2 mids).2
        (hashAudio audio)).1 = false := by
  constructor
  · exact checkAndInsert_fresh recent (hashAudio audio) hfresh
  · have h1 : hashAudio audio ∈
        lastN 1 (checkAndInsert recent (hashAudio audio)).2 := by
      unfold checkAndInsert maxRecent
      rw [if_neg hfresh]
      split_ifs with hlen
      · rw [show (1 : Nat) = 0 + 1 from rfl,
          lastN_tail_append recent (hashAudio audio) 0
            (by simp only [List.length_append, List.length_cons,
              List.length_nil] at hlen; omega)]
        simp [lastN]
      · rw [show (1 : Nat) = 0 + 1 from rfl,
          lastN_append_last recent (hashAudio audio) 0]
        simp [lastN]
    have h2 := dedupSurvive mids (checkAndInsert recent (hashAudio audio)).2
      1 (hashAudio audio) h1 (by omega)
    exact checkAndInsert_cached _ _ h2

/-- Witness for `C4`: the content `[7]` accepted into an empty cache,
four distinct utterances in between, then `[7]` rejected. -/
theorem c4_duplicate_rejected_witness :
    (checkAndInsert [] (hashAudio [7])).1 = true ∧
    (checkAndInsert
        (runDedup (checkAndInsert [] (hashAudio [7])).2
          [[1], [2], [3], [4]]).2
        (hashAudio [7])).1 = false := by
  have h := c4_duplicate_rejected [7] [] [[1], [2], [3], [4]]
    (by decide) (by decide)
  exact h

end Yappatron
